import Mathlib

/-!
Shallow embedding of the EduScribe optimized backend
(`src/backend/optimized_main.py`): the per-lecture streaming pipeline of
`OptimizedAudioProcessor` (transcript buffering, the mid-stream synthesis
trigger, `synthesize_notes`, `final_synthesis`), the websocket reconnect
logic of `websocket_endpoint`, and the `stop_recording` /
`request_final_synthesis` control handlers.

External collaborators (transcription, RAG retrieval, the LLM synthesizers,
the importance scorer, the topic-shift detector) are modelled as an
environment of pure functions; MongoDB persistence calls are recorded as a
list of persistence records; websocket `send_json` calls are recorded as a
list of events.  Wall-clock time (`time.time()`, seconds) is passed
explicitly as a natural number.
-/

namespace EduScribe

/-- One entry of `self.transcription_buffers[lecture_id]`: the dict built at
lines 153-158 of `optimized_main.py` (`text`, `timestamp`, `language`,
`duration`). -/
structure Transcription where
  text : String
  timestamp : Nat
  language : Option String
  duration : Option Nat
deriving DecidableEq

/-- Result of `transcribe_local`: `text` plus optional metadata and the
`segments` list (segments kept opaque as strings). -/
structure TransOut where
  text : String
  language : Option String
  duration : Option Nat
  segments : List String
deriving DecidableEq

/-- Outcome of the mid-stream synthesis collaborator
`synthesize_structured_notes`: a dict with `success = True` and the notes,
a dict with `success = False` (no exception raised), or a raised
exception. -/
inductive MidResult where
  | ok (notes : String)
  | failed
  | exn (e : String)
deriving DecidableEq

/-- Outcome of the final synthesis collaborator `synthesize_final_notes`:
success carries title, markdown, sections, glossary and key takeaways. -/
inductive FinalResult where
  | ok (title markdown : String) (sections glossary keyTakeaways : List String)
  | failed
  | exn (e : String)
deriving DecidableEq

/-- Events pushed to the client over the websocket (`send_json` calls in
`process_lecture_audio`, `synthesize_notes`, `final_synthesis` and the
`stop_recording` handler). -/
inductive Event where
  | transcription (content enhancedNotes : String) (timestamp chunkNumber : Nat)
  | synthesisStarted
  | structuredNotes (content : String) (timestamp transcriptionCount : Nat)
  | synthesisError (e : String)
  | finalSynthesisStarted
  | finalNotes (title markdown : String) (sections glossary keyTakeaways : List String)
      (timestamp : Nat)
  | finalSynthesisError (e : String)
  | recordingStopped
deriving DecidableEq

/-- Records written to MongoDB: `save_transcription`,
`save_structured_notes`, `save_final_notes`. -/
inductive Persist where
  | transcriptionRec (chunkIndex : Nat) (text enhancedNotes : String)
      (timestamp : Nat) (importance : Rat)
  | structuredRec (content : String) (transcriptionCount : Nat)
  | finalRec (title markdown : String) (sections glossary keyTakeaways : List String)
deriving DecidableEq

/-- The external collaborators consumed by the pipeline, for one fixed
lecture id (the Python functions also take `lecture_id`; the embedding is
per-session so that argument is dropped). -/
structure Env where
  transcribe : String → Except String TransOut
  queryDocuments : String → Nat → List String
  generateRawNotes : String → List String → String
  scoreImportance : String → List String → Option Rat
  detectTopicShift : String → List String → Bool
  synthesizeStructuredNotes : List Transcription → List String → Option String → MidResult
  synthesizeFinalNotes : List String → List String → FinalResult

/-- Per-lecture mutable state of `OptimizedAudioProcessor`:
`transcription_buffers[id]`, `last_synthesis_time[id]` (0.0 initially,
modelled in whole seconds) and `structured_notes_history[id]`. -/
structure ProcState where
  buffer : List Transcription
  lastSynthesisTime : Nat
  history : List String
deriving DecidableEq

/-- Fresh per-lecture state: empty `defaultdict` entries. -/
def procState0 : ProcState := ⟨[], 0, []⟩

/-- Python `str.strip()`: remove leading and trailing whitespace.
(Defined on the character list so that it reduces in the kernel;
`String.trim` is extensionally the same operation.) -/
def pyStrip (s : String) : String :=
  ⟨((s.data.dropWhile Char.isWhitespace).reverse.dropWhile Char.isWhitespace).reverse⟩

/-- Python slice `xs[-n:]`: the last `n` elements (all of `xs` when it is
shorter than `n`). -/
def lastN (n : Nat) (xs : List α) : List α :=
  xs.drop (xs.length - n)

/-- Python `" ".join(t["text"] for t in xs)`. -/
def joinTexts (xs : List Transcription) : String :=
  String.intercalate " " (xs.map Transcription.text)

/-- The mid-stream synthesis trigger, lines 209-234 of
`process_lecture_audio`: fire when the buffer holds at least 3 fragments
and 60 seconds elapsed since the last synthesis or no synthesis ever
happened (`last_synthesis == 0`); otherwise consult `detect_topic_shift` on
the last (`recent[-1]`) of the last three texts against the prior two
(`recent[:-1]`). -/
def shouldSynthesize (buffer : List Transcription) (currentTime lastSynthesis : Nat)
    (detect : String → List String → Bool) : Bool :=
  if 3 ≤ buffer.length then
    if 60 ≤ currentTime - lastSynthesis ∨ lastSynthesis = 0 then
      true
    else
      let recent := (lastN 3 buffer).map Transcription.text
      detect (recent.getLastD "") recent.dropLast
  else
    false

/-- `OptimizedAudioProcessor.synthesize_notes` (lines 250-322): take the
last 3 buffered fragments, run a top-5 retrieval over their joined text,
pass the most recent prior structured note, and invoke the synthesis
collaborator.  On `success`: append to history, persist, push a
`structured_notes` event, set the last-synthesis time, truncate the buffer
to `buffer[-1:]`.  On a `success == False` return: nothing (the code has no
else branch).  On a raised exception: push a `synthesis_error` event.
Returns (new state, events pushed, records persisted). -/
def synthesize_notes (env : Env) (st : ProcState) (now : Nat) :
    ProcState × List Event × List Persist :=
  let transcriptions := lastN 3 st.buffer
  if transcriptions.isEmpty then
    (st, [], [])
  else
    let combinedText := joinTexts transcriptions
    let ragContext := env.queryDocuments combinedText 5
    let previousNotes := st.history.getLast?
    match env.synthesizeStructuredNotes transcriptions ragContext previousNotes with
    | MidResult.ok notes =>
        (⟨lastN 1 st.buffer, now, st.history ++ [notes]⟩,
         [Event.synthesisStarted,
          Event.structuredNotes notes (1000 * now) transcriptions.length],
         [Persist.structuredRec notes transcriptions.length])
    | MidResult.failed =>
        (st, [Event.synthesisStarted], [])
    | MidResult.exn e =>
        (st, [Event.synthesisStarted, Event.synthesisError e], [])

/-- Observable output of one worker loop iteration. `scored` records the
texts passed to `score_importance`; `synthRan` records whether
`should_synthesize` was true (so `synthesize_notes` was invoked). -/
structure StepOut where
  state : ProcState
  events : List Event
  persists : List Persist
  scored : List String
  synthRan : Bool
deriving DecidableEq

/-- One iteration of the worker loop in
`OptimizedAudioProcessor.process_lecture_audio` (lines 128-242) on a single
dequeued chunk: transcribe (a transcription error `continue`s), strip the
text (empty text `continue`s), append to the buffer, retrieve + enrich,
persist with `chunk_index = len(buffer) - 1`, score importance, push a
`transcription` event with `chunk_number = len(buffer)`, then evaluate the
trigger and possibly synthesize.  `now` is `time.time()` in whole seconds
at the trigger evaluation. -/
def process_chunk (env : Env) (st : ProcState) (filePath : String)
    (timestamp : Nat) (now : Nat) : StepOut :=
  match env.transcribe filePath with
  | Except.error _ => ⟨st, [], [], [], false⟩
  | Except.ok tr =>
    let text := pyStrip tr.text
    if text = "" then
      ⟨st, [], [], [], false⟩
    else
      let frag : Transcription := ⟨text, timestamp, tr.language, tr.duration⟩
      let buf1 := st.buffer ++ [frag]
      let ragContext := env.queryDocuments text 5
      let enhanced := env.generateRawNotes text ragContext
      let chunkIndex := buf1.length - 1
      let importance := (env.scoreImportance text tr.segments).getD (1 / 2 : Rat)
      let evs1 := [Event.transcription text enhanced timestamp buf1.length]
      let per1 := [Persist.transcriptionRec chunkIndex text enhanced timestamp importance]
      let stApp : ProcState := ⟨buf1, st.lastSynthesisTime, st.history⟩
      if shouldSynthesize buf1 now st.lastSynthesisTime env.detectTopicShift then
        let res := synthesize_notes env stApp now
        ⟨res.1, evs1 ++ res.2.1, per1 ++ res.2.2, [text], true⟩
      else
        ⟨stApp, evs1, per1, [text], false⟩

/-- Observable output of `final_synthesis`.  `queries` records the
`query_documents` calls (query text, top k); `calls` records the
invocations of `synthesize_final_notes` (structured-notes history, rag
context).  The function never mutates the per-lecture state, so `state` is
carried through unchanged. -/
structure FinalOut where
  state : ProcState
  events : List Event
  persists : List Persist
  queries : List (String × Nat)
  calls : List (List String × List String)
deriving DecidableEq

/-- `OptimizedAudioProcessor.final_synthesis` (lines 324-390): return
silently when the structured-notes history is empty; otherwise push
`final_synthesis_started`, run a top-15 retrieval over the joined text of
all buffered fragments, invoke the final-synthesis collaborator with the
full history.  On `success`: persist and push `final_notes`.  On a
`success == False` return: log only (no event).  On a raised exception:
push `final_synthesis_error`. -/
def final_synthesis (env : Env) (st : ProcState) (now : Nat) : FinalOut :=
  let allStructuredNotes := st.history
  if allStructuredNotes.isEmpty then
    ⟨st, [], [], [], []⟩
  else
    let allTranscriptions := joinTexts st.buffer
    let ragContext := env.queryDocuments allTranscriptions 15
    match env.synthesizeFinalNotes allStructuredNotes ragContext with
    | FinalResult.ok title markdown sections glossary keyTakeaways =>
        ⟨st,
         [Event.finalSynthesisStarted,
          Event.finalNotes title markdown sections glossary keyTakeaways (1000 * now)],
         [Persist.finalRec title markdown sections glossary keyTakeaways],
         [(allTranscriptions, 15)],
         [(allStructuredNotes, ragContext)]⟩
    | FinalResult.failed =>
        ⟨st, [Event.finalSynthesisStarted], [], [(allTranscriptions, 15)],
         [(allStructuredNotes, ragContext)]⟩
    | FinalResult.exn e =>
        ⟨st, [Event.finalSynthesisStarted, Event.finalSynthesisError e], [],
         [(allTranscriptions, 15)], [(allStructuredNotes, ragContext)]⟩

/-- The observable steps of the `stop_recording` flush procedure:
the `asyncio.sleep(2)` grace wait, an invocation of `synthesize_notes`
(mid-stream), and an invocation of `final_synthesis`. -/
inductive FlushStep where
  | grace (seconds : Nat)
  | midStream
  | finalSynth
deriving DecidableEq

/-- Output of a websocket control-message handler. -/
structure HandlerOut where
  state : ProcState
  steps : List FlushStep
  events : List Event
  persists : List Persist
deriving DecidableEq

/-- The `stop_recording` branch of `websocket_endpoint` (lines 583-600):
`await asyncio.sleep(2)`, then one last `synthesize_notes` when the
transcript buffer is non-empty, then `final_synthesis`, then a
`recording_stopped` event. -/
def handle_stop_recording (env : Env) (st : ProcState) (now : Nat) : HandlerOut :=
  let midNeeded := 0 < st.buffer.length
  let mid := if midNeeded then synthesize_notes env st now else (st, [], [])
  let fo := final_synthesis env mid.1 now
  ⟨fo.state,
   FlushStep.grace 2 :: ((if midNeeded then [FlushStep.midStream] else []) ++ [FlushStep.finalSynth]),
   mid.2.1 ++ fo.events ++ [Event.recordingStopped],
   mid.2.2 ++ fo.persists⟩

/-- The `request_final_synthesis` branch of `websocket_endpoint`
(lines 602-604): it calls `final_synthesis` directly, with no grace wait
and no last mid-stream synthesis. -/
def handle_request_final (env : Env) (st : ProcState) (now : Nat) : HandlerOut :=
  let fo := final_synthesis env st now
  ⟨fo.state, [FlushStep.finalSynth], fo.events, fo.persists⟩

/-- Run the worker loop over a list of queued chunks
(file path, arrival timestamp in ms, `time.time()` in seconds at the
trigger evaluation), accumulating events and persistence records. -/
def runChunks (env : Env) (st : ProcState) :
    List (String × Nat × Nat) → ProcState × List Event × List Persist
  | [] => (st, [], [])
  | (fp, ts, now) :: rest =>
      let out := process_chunk env st fp ts now
      let r := runChunks env out.state rest
      (r.1, out.events ++ r.2.1, out.persists ++ r.2.2)

/-- Chunk indices of the `save_transcription` records among a list of
persistence records, in order. -/
def transcriptChunkIndices : List Persist → List Nat
  | [] => []
  | Persist.transcriptionRec i _ _ _ _ :: rest => i :: transcriptChunkIndices rest
  | _ :: rest => transcriptChunkIndices rest

/-! ## Server-side session registry (`websocket_endpoint`, lines 539-561) -/

/-- A background worker task created by `asyncio.create_task
(processor.process_lecture_audio(lecture_id))`; `alive = false` once it has
been cancelled and awaited. -/
structure Worker where
  wid : Nat
  sid : String
  alive : Bool
deriving DecidableEq

/-- A work item on `audio_queues[lecture_id]` (the websocket reference in
the Python dict is dropped). -/
structure WorkItem where
  filePath : String
  timestamp : Nat
deriving DecidableEq

/-- Server state: every worker task ever created (`processing_tasks` values,
cancelled ones included), the `processing_tasks` map and the `audio_queues`
map, both keyed by lecture id. -/
structure ServerState where
  workers : List Worker
  tasksMap : List (String × Nat)
  queues : List (String × List WorkItem)

/-- Dictionary lookup (`d[k]` / `k in d`). -/
def findVal (m : List (String × β)) (k : String) : Option β :=
  match m with
  | [] => none
  | (k2, v) :: rest => if k2 = k then some v else findVal rest k

/-- Dictionary assignment `d[k] = v`. -/
def setKey (m : List (String × β)) (k : String) (v : β) : List (String × β) :=
  (k, v) :: m.filter (fun p => decide (p.1 ≠ k))

/-- `old_task.cancel()` followed by `await old_task`: the task with this id
is no longer running afterwards. -/
def cancelWorker (ws : List Worker) (w : Nat) : List Worker :=
  ws.map (fun x => if x.wid = w then ⟨x.wid, x.sid, false⟩ else x)

/-- A task id not used by any existing worker. -/
def freshId (ws : List Worker) : Nat :=
  ws.foldr (fun w acc => max (w.wid + 1) acc) 0

/-- The workers currently running for a session id. -/
def liveWorkers (srv : ServerState) (sid : String) : List Worker :=
  srv.workers.filter (fun w => decide (w.sid = sid) && w.alive)

/-- The connection sequence of `websocket_endpoint` (lines 544-561): if
`lecture_id in processor.processing_tasks`, cancel the old task, await its
termination, and replace `audio_queues[lecture_id]` with a fresh empty
queue; then create a new worker task and store it in
`processing_tasks[lecture_id]`. -/
def websocket_connect (srv : ServerState) (sid : String) : ServerState :=
  let srv1 : ServerState :=
    match findVal srv.tasksMap sid with
    | some oldW =>
        ⟨cancelWorker srv.workers oldW, srv.tasksMap, setKey srv.queues sid []⟩
    | none => srv
  let newId := freshId srv1.workers
  ⟨srv1.workers ++ [⟨newId, sid, true⟩], setKey srv1.tasksMap sid newId, srv1.queues⟩

/-! ## Concrete environments and states for scenarios and witnesses -/

/-- Scenario environment: transcription returns the file path itself as the
text, retrieval returns no context, enrichment prefixes the text, topic
shift is never detected, mid-stream synthesis succeeds with the joined
input texts, final synthesis succeeds with fixed fields. -/
def runEnv : Env :=
  ⟨fun fp => Except.ok ⟨fp, none, none, []⟩,
   fun _ _ => [],
   fun t _ => "notes:" ++ t,
   fun _ _ => some 1,
   fun _ _ => false,
   fun trs _ _ => MidResult.ok ("NOTES:" ++ joinTexts trs),
   fun h _ => FinalResult.ok "T" "M" [] [] (h ++ [])⟩

/-- Environment whose mid-stream synthesis collaborator returns
`success == False` without raising. -/
def midFailEnv : Env :=
  ⟨runEnv.transcribe, runEnv.queryDocuments, runEnv.generateRawNotes,
   runEnv.scoreImportance, runEnv.detectTopicShift,
   fun _ _ _ => MidResult.failed, runEnv.synthesizeFinalNotes⟩

/-- Environment whose final synthesis collaborator returns
`success == False` without raising. -/
def finalFailEnv : Env :=
  ⟨runEnv.transcribe, runEnv.queryDocuments, runEnv.generateRawNotes,
   runEnv.scoreImportance, runEnv.detectTopicShift,
   runEnv.synthesizeStructuredNotes, fun _ _ => FinalResult.failed⟩

/-- Environment whose transcription collaborator detects no speech: it
returns whitespace-only text for every chunk. -/
def blankEnv : Env :=
  ⟨fun _ => Except.ok ⟨"  ", none, none, []⟩, runEnv.queryDocuments,
   runEnv.generateRawNotes, runEnv.scoreImportance, runEnv.detectTopicShift,
   runEnv.synthesizeStructuredNotes, runEnv.synthesizeFinalNotes⟩

/-- A state with one buffered fragment and no synthesis history. -/
def stOne : ProcState := ⟨[⟨"X", 1000, none, none⟩], 0, []⟩

/-- A state with one buffered fragment, a prior synthesis at t = 50 and one
structured note in the history. -/
def stHist : ProcState := ⟨[⟨"X", 1000, none, none⟩], 50, ["H1"]⟩

/-- A server with one running worker for session `s` and one pending work
item on its queue. -/
def srvOne : ServerState := ⟨[⟨0, "s", true⟩], [("s", 0)], [("s", [⟨"f", 1⟩])]⟩

/-- The C4 scenario arrivals: texts A, B, C, D at 0 s, 20 s, 40 s, 61 s. -/
def chunksABCD : List (String × Nat × Nat) :=
  [("A", 0, 0), ("B", 20000, 20), ("C", 40000, 40), ("D", 61000, 61)]

/-- The first three arrivals of the C4 scenario. -/
def chunksABC : List (String × Nat × Nat) :=
  [("A", 0, 0), ("B", 20000, 20), ("C", 40000, 40)]

/-! ## Helper lemmas -/

theorem isEmpty_false_of_ne_nil {α : Type} {l : List α} (h : l ≠ []) : l.isEmpty = false := by
  cases l with
  | nil => exact absurd rfl h
  | cons a t => rfl

theorem lastN_append_three {α : Type} (pre : List α) (x y z : α) :
    lastN 3 (pre ++ [x, y, z]) = [x, y, z] := by
  unfold lastN
  have h : (pre ++ [x, y, z]).length - 3 = pre.length := by simp
  rw [h, List.drop_left]

theorem lastN_length {α : Type} (n : Nat) (xs : List α) :
    (lastN n xs).length = min n xs.length := by
  unfold lastN
  rw [List.length_drop]
  omega

theorem lastN_ne_nil {α : Type} (xs : List α) (h : xs ≠ []) (n : Nat) (hn : 1 ≤ n) :
    lastN n xs ≠ [] := by
  intro hc
  have hlen : (lastN n xs).length = 0 := by rw [hc]; rfl
  rw [lastN_length] at hlen
  have hpos : 0 < xs.length := List.length_pos.mpr h
  omega

theorem lastN_one_getLast {α : Type} (xs : List α) (h : xs ≠ []) :
    lastN 1 xs = [xs.getLast h] := by
  induction xs with
  | nil => exact absurd rfl h
  | cons a t ih =>
    cases t with
    | nil => rfl
    | cons b t2 =>
      have h2 : (b :: t2 : List α) ≠ [] := by simp
      have hstep : lastN 1 (a :: b :: t2) = lastN 1 (b :: t2) := by
        unfold lastN
        simp [List.length]
      rw [hstep, ih h2, List.getLast_cons h2]

theorem transcriptChunkIndices_append (l1 l2 : List Persist) :
    transcriptChunkIndices (l1 ++ l2) =
      transcriptChunkIndices l1 ++ transcriptChunkIndices l2 := by
  induction l1 with
  | nil => rfl
  | cons p rest ih =>
    cases p <;> simp [transcriptChunkIndices, ih]

theorem transcriptChunkIndices_synth (env : Env) (st : ProcState) (now : Nat) :
    transcriptChunkIndices (synthesize_notes env st now).2.2 = [] := by
  unfold synthesize_notes
  by_cases h : (lastN 3 st.buffer).isEmpty
  · simp [h, transcriptChunkIndices]
  · cases hr : env.synthesizeStructuredNotes (lastN 3 st.buffer)
        (env.queryDocuments (joinTexts (lastN 3 st.buffer)) 5) st.history.getLast? <;>
      simp [h, hr, transcriptChunkIndices]

theorem findVal_setKey_self {β : Type} (m : List (String × β)) (k : String) (v : β) :
    findVal (setKey m k v) k = some v := by
  simp [findVal, setKey]

theorem freshId_gt (ws : List Worker) : ∀ w ∈ ws, w.wid < freshId ws := by
  induction ws with
  | nil => intro w hw; cases hw
  | cons a t ih =>
    intro w hw
    rcases List.mem_cons.mp hw with h | h
    · subst h
      simp only [freshId, List.foldr]
      omega
    · have := ih w h
      simp only [freshId, List.foldr] at this ⊢
      omega

theorem freshId_cancel (ws : List Worker) (o : Nat) :
    freshId (cancelWorker ws o) = freshId ws := by
  induction ws with
  | nil => rfl
  | cons a t ih =>
    simp only [cancelWorker, List.map] at ih ⊢
    by_cases h : a.wid = o <;>
      simp only [freshId, List.foldr, h, if_pos, if_neg] at ih ⊢ <;>
      simp [ih]

/-! ## Claim theorems -/

/-- C1: for every fragment append, the mid-stream synthesis trigger fires
exactly when the transcript buffer holds at least 3 fragments and either
60 seconds elapsed since the last synthesis or no synthesis ever occurred
(last-synthesis timestamp 0), or, failing that time condition, the
topic-shift detector returns true on the most recent fragment versus the
prior two; with fewer than 3 fragments no synthesis occurs regardless of
elapsed time or topic shift.  The third conjunct ties the trigger to the
worker loop: after a non-empty transcription the loop invokes
`synthesize_notes` exactly when the trigger holds on the post-append
buffer. -/
theorem c1_trigger_characterization :
    (∀ (pre : List Transcription) (x y z : Transcription) (now last : Nat)
        (detect : String → List String → Bool),
      shouldSynthesize (pre ++ [x, y, z]) now last detect = true ↔
        ((60 ≤ now - last ∨ last = 0) ∨ detect z.text [x.text, y.text] = true))
    ∧ (∀ (buf : List Transcription) (now last : Nat)
        (detect : String → List String → Bool),
      buf.length < 3 → shouldSynthesize buf now last detect = false)
    ∧ (∀ (env : Env) (st : ProcState) (fp : String) (ts now : Nat) (tr : TransOut),
      env.transcribe fp = Except.ok tr → pyStrip tr.text ≠ "" →
      (process_chunk env st fp ts now).synthRan =
        shouldSynthesize (st.buffer ++ [⟨pyStrip tr.text, ts, tr.language, tr.duration⟩])
          now st.lastSynthesisTime env.detectTopicShift) := by
  refine ⟨?_, ?_, ?_⟩
  · intro pre x y z now last detect
    have h3 : 3 ≤ (pre ++ [x, y, z]).length := by simp
    have hlast : lastN 3 (pre ++ [x, y, z]) = [x, y, z] := lastN_append_three pre x y z
    by_cases htime : 60 ≤ now - last ∨ last = 0
    · simp [shouldSynthesize, h3, htime]
    · simp [shouldSynthesize, h3, htime, hlast, List.getLastD, List.dropLast]
  · intro buf now last detect h
    have : ¬ 3 ≤ buf.length := by omega
    simp [shouldSynthesize, this]
  · intro env st fp ts now tr hok hne
    by_cases hs : shouldSynthesize
        (st.buffer ++ [⟨pyStrip tr.text, ts, tr.language, tr.duration⟩])
        now st.lastSynthesisTime env.detectTopicShift =
      true <;>
      simp [process_chunk, hok, hne, hs] at hs ⊢

/-- C1 witness: trigger-versus-loop agreement at a concrete input. -/
theorem c1_witness :
    (process_chunk runEnv stOne "A" 5 100).synthRan =
      shouldSynthesize (stOne.buffer ++ [⟨pyStrip "A", 5, none, none⟩])
        100 stOne.lastSynthesisTime runEnv.detectTopicShift :=
  c1_trigger_characterization.2.2 runEnv stOne "A" 5 100 ⟨"A", none, none, []⟩ rfl (by decide)

/-- C2: on a successful mid-stream synthesis round, the new structured note
is appended to the history, it is persisted, a `structured_notes` event is
pushed, the last-synthesis timestamp is set to the current time, and the
transcript buffer is truncated to exactly its single newest fragment. -/
theorem c2_success_effects (env : Env) (st : ProcState) (now : Nat) (notes : String)
    (hne : st.buffer ≠ [])
    (hok : env.synthesizeStructuredNotes (lastN 3 st.buffer)
        (env.queryDocuments (joinTexts (lastN 3 st.buffer)) 5) st.history.getLast?
        = MidResult.ok notes) :
    synthesize_notes env st now =
      (⟨[st.buffer.getLast hne], now, st.history ++ [notes]⟩,
       [Event.synthesisStarted,
        Event.structuredNotes notes (1000 * now) (lastN 3 st.buffer).length],
       [Persist.structuredRec notes (lastN 3 st.buffer).length]) := by
  have hne3 : (lastN 3 st.buffer).isEmpty = false :=
    isEmpty_false_of_ne_nil (lastN_ne_nil st.buffer hne 3 (by omega))
  simp [synthesize_notes, hne3, hok, lastN_one_getLast st.buffer hne]

/-- C2 witness: a concrete successful round. -/
theorem c2_witness :
    synthesize_notes runEnv stOne 70 =
      (⟨[⟨"X", 1000, none, none⟩], 70, ["NOTES:X"]⟩,
       [Event.synthesisStarted, Event.structuredNotes "NOTES:X" 70000 1],
       [Persist.structuredRec "NOTES:X" 1]) :=
  c2_success_effects runEnv stOne 70 "NOTES:X" (by decide) (by decide)

/-- C8: a segment whose transcription text is empty or whitespace-only
short-circuits the worker loop: the fragment is not appended to the
buffer, not importance-scored, not persisted, and no transcription event
is pushed. -/
theorem c8_empty_transcription (env : Env) (st : ProcState) (fp : String)
    (ts now : Nat) (tr : TransOut)
    (hok : env.transcribe fp = Except.ok tr) (hempty : pyStrip tr.text = "") :
    process_chunk env st fp ts now = ⟨st, [], [], [], false⟩ := by
  simp [process_chunk, hok, hempty]

/-- C8 witness: a concrete whitespace-only transcription. -/
theorem c8_witness :
    process_chunk blankEnv stOne "f" 9 99 = ⟨stOne, [], [], [], false⟩ :=
  c8_empty_transcription blankEnv stOne "f" 9 99 ⟨"  ", none, none, []⟩ rfl (by decide)

/-- C10: invoking final synthesis while the structured-notes history is
empty has no observable effect: no events, no persistence, no retrieval
query, no collaborator invocation, and the per-lecture state is
unchanged. -/
theorem c10_empty_history (env : Env) (st : ProcState) (now : Nat)
    (h : st.history = []) :
    final_synthesis env st now = ⟨st, [], [], [], []⟩ := by
  simp [final_synthesis, h]

/-- C10 witness: a concrete empty-history state. -/
theorem c10_witness : final_synthesis runEnv stOne 5 = ⟨stOne, [], [], [], []⟩ :=
  c10_empty_history runEnv stOne 5 rfl

/-- C3 counterexample: `midFailEnv`'s synthesis collaborator returns
`success == False` (without raising), so the round does not succeed, yet
the only event pushed is `synthesis_started` — no `synthesis_error` event
is pushed, refuting the claim that every failed round pushes one.  (The
buffer and timestamp are indeed unchanged: the whole state is returned
untouched.) -/
theorem c3_counterexample :
    midFailEnv.synthesizeStructuredNotes (lastN 3 stOne.buffer)
        (midFailEnv.queryDocuments (joinTexts (lastN 3 stOne.buffer)) 5)
        stOne.history.getLast? = MidResult.failed ∧
    synthesize_notes midFailEnv stOne 70 = (stOne, [Event.synthesisStarted], []) := by
  constructor
  · rfl
  · decide

/-- C3 amended: on a failed mid-stream synthesis round the transcript
buffer and the last-synthesis timestamp are left unchanged (the whole
per-lecture state is returned untouched), so the next fragment arrival
re-evaluates the trigger; but a `synthesis_error` event carrying the
failure detail is pushed only when the synthesis collaborator raises an
exception — a `success == False` return produces no client event at all. -/
theorem c3_failure_effects (env : Env) (st : ProcState) (now : Nat)
    (hne : st.buffer ≠ []) :
    (env.synthesizeStructuredNotes (lastN 3 st.buffer)
        (env.queryDocuments (joinTexts (lastN 3 st.buffer)) 5) st.history.getLast?
        = MidResult.failed →
      synthesize_notes env st now = (st, [Event.synthesisStarted], []))
    ∧ (∀ e, env.synthesizeStructuredNotes (lastN 3 st.buffer)
        (env.queryDocuments (joinTexts (lastN 3 st.buffer)) 5) st.history.getLast?
        = MidResult.exn e →
      synthesize_notes env st now =
        (st, [Event.synthesisStarted, Event.synthesisError e], [])) := by
  have hne3 : (lastN 3 st.buffer).isEmpty = false :=
    isEmpty_false_of_ne_nil (lastN_ne_nil st.buffer hne 3 (by omega))
  constructor
  · intro hr
    simp [synthesize_notes, hne3, hr]
  · intro e hr
    simp [synthesize_notes, hne3, hr]

/-- C3 witness: the `success == False` branch at a concrete input. -/
theorem c3_witness :
    synthesize_notes midFailEnv stOne 70 = (stOne, [Event.synthesisStarted], []) :=
  (c3_failure_effects midFailEnv stOne 70 (by decide)).1 (by decide)

/-- C4 counterexample: in the scenario with texts A, B, C arriving at 0 s,
20 s, 40 s and no topic shift, the claim says no mid-stream synthesis
occurs after C; but since no synthesis ever happened, the last-synthesis
timestamp is 0 and the trigger forces a fire at the third fragment: a
`structured_notes` event over A, B, C is pushed and the buffer collapses
to C alone. -/
theorem c4_counterexample :
    Event.structuredNotes "NOTES:A B C" 40000 3 ∈
      (runChunks runEnv procState0 chunksABC).2.1 ∧
    (runChunks runEnv procState0 chunksABC).1.buffer.map Transcription.text = ["C"] := by
  decide

/-- C4 amended: with texts A, B, C, D arriving at 0 s, 20 s, 40 s, 61 s and
no topic shift, synthesis fires already after C (the never-synthesized
case, last-synthesis timestamp 0, forces the time trigger) over the last
three fragments A, B, C, and the buffer collapses to C; after D at 61 s
the buffer is C, D (length 2 < 3), so no further synthesis fires. -/
theorem c4_amended_run :
    runChunks runEnv procState0 chunksABCD =
      (⟨[⟨"C", 40000, none, none⟩, ⟨"D", 61000, none, none⟩], 40, ["NOTES:A B C"]⟩,
       [Event.transcription "A" "notes:A" 0 1,
        Event.transcription "B" "notes:B" 20000 2,
        Event.transcription "C" "notes:C" 40000 3,
        Event.synthesisStarted,
        Event.structuredNotes "NOTES:A B C" 40000 3,
        Event.transcription "D" "notes:D" 61000 2],
       [Persist.transcriptionRec 0 "A" "notes:A" 0 1,
        Persist.transcriptionRec 1 "B" "notes:B" 20000 1,
        Persist.transcriptionRec 2 "C" "notes:C" 40000 1,
        Persist.structuredRec "NOTES:A B C" 3,
        Persist.transcriptionRec 1 "D" "notes:D" 61000 1]) := by
  decide

/-- C9: each fragment is persisted with chunk index equal to the transcript
buffer length minus one at the moment of its append (so index =
pre-append length); because a successful synthesis truncates the buffer to
its single newest fragment, the first fragment appended after a synthesis
is persisted with index 1; the concrete A, B, C, D run therefore persists
indices 0, 1, 2, 1 — neither unique nor strictly increasing. -/
theorem c9_chunk_index :
    (∀ (env : Env) (st : ProcState) (fp : String) (ts now : Nat) (tr : TransOut),
      env.transcribe fp = Except.ok tr → pyStrip tr.text ≠ "" →
      transcriptChunkIndices (process_chunk env st fp ts now).persists =
        [st.buffer.length])
    ∧ (∀ (env : Env) (st : ProcState) (fp : String) (ts now : Nat) (tr : TransOut),
      env.transcribe fp = Except.ok tr → pyStrip tr.text ≠ "" →
      st.buffer.length = 1 →
      transcriptChunkIndices (process_chunk env st fp ts now).persists = [1])
    ∧ transcriptChunkIndices (runChunks runEnv procState0 chunksABCD).2.2 =
        [0, 1, 2, 1] := by
  have key : ∀ (env : Env) (st : ProcState) (fp : String) (ts now : Nat) (tr : TransOut),
      env.transcribe fp = Except.ok tr → pyStrip tr.text ≠ "" →
      transcriptChunkIndices (process_chunk env st fp ts now).persists =
        [st.buffer.length] := by
    intro env st fp ts now tr hok hne
    by_cases hs : shouldSynthesize
        (st.buffer ++ [⟨pyStrip tr.text, ts, tr.language, tr.duration⟩])
        now st.lastSynthesisTime env.detectTopicShift = true
    · simp [process_chunk, hok, hne, hs, transcriptChunkIndices_append,
        transcriptChunkIndices, transcriptChunkIndices_synth]
    · simp at hs
      simp [process_chunk, hok, hne, hs, transcriptChunkIndices]
  refine ⟨key, ?_, by decide⟩
  intro env st fp ts now tr hok hne h1
  rw [key env st fp ts now tr hok hne, h1]

/-- C9 witness: a post-synthesis state (buffer length 1) persists the next
fragment with chunk index 1. -/
theorem c9_witness :
    transcriptChunkIndices (process_chunk runEnv stOne "D" 7 100).persists = [1] :=
  c9_chunk_index.2.1 runEnv stOne "D" 7 100 ⟨"D", none, none, []⟩ rfl (by decide) rfl

/-- C7 counterexample: `finalFailEnv`'s final-synthesis collaborator
returns `success == False` (without raising), so final synthesis does not
succeed, yet the only event pushed is `final_synthesis_started` — no
`final_synthesis_error` event is pushed, refuting the claim that every
failure pushes one. -/
theorem c7_counterexample :
    finalFailEnv.synthesizeFinalNotes stHist.history
        (finalFailEnv.queryDocuments (joinTexts stHist.buffer) 15) =
      FinalResult.failed ∧
    (final_synthesis finalFailEnv stHist 100).events = [Event.finalSynthesisStarted] := by
  constructor
  · rfl
  · decide

/-- C7 amended: when final synthesis fails, no retry is attempted (the
final-synthesis collaborator is invoked exactly once, nothing is persisted
and the state is unchanged); but a `final_synthesis_error` event is pushed
only when the collaborator raises an exception — a `success == False`
return produces no error event (it is only logged). -/
theorem c7_final_failure (env : Env) (st : ProcState) (now : Nat)
    (hne : st.history ≠ []) :
    (env.synthesizeFinalNotes st.history
        (env.queryDocuments (joinTexts st.buffer) 15) = FinalResult.failed →
      (final_synthesis env st now).events = [Event.finalSynthesisStarted] ∧
      (final_synthesis env st now).persists = [] ∧
      (final_synthesis env st now).calls.length = 1 ∧
      (final_synthesis env st now).state = st)
    ∧ (∀ e, env.synthesizeFinalNotes st.history
        (env.queryDocuments (joinTexts st.buffer) 15) = FinalResult.exn e →
      (final_synthesis env st now).events =
        [Event.finalSynthesisStarted, Event.finalSynthesisError e] ∧
      (final_synthesis env st now).persists = [] ∧
      (final_synthesis env st now).calls.length = 1 ∧
      (final_synthesis env st now).state = st) := by
  have h0 : st.history.isEmpty = false := isEmpty_false_of_ne_nil hne
  constructor
  · intro hr
    simp [final_synthesis, h0, hr]
  · intro e hr
    simp [final_synthesis, h0, hr]

/-- C7 witness: the `success == False` branch at a concrete input. -/
theorem c7_witness :
    (final_synthesis finalFailEnv stHist 100).events = [Event.finalSynthesisStarted] ∧
    (final_synthesis finalFailEnv stHist 100).persists = [] ∧
    (final_synthesis finalFailEnv stHist 100).calls.length = 1 ∧
    (final_synthesis finalFailEnv stHist 100).state = stHist :=
  (c7_final_failure finalFailEnv stHist 100 (by decide)).1 (by decide)

/-- C6 counterexample: the `request_final_synthesis` handler invokes final
synthesis directly — even with a non-empty fragment buffer there is no
grace-period wait and no last mid-stream synthesis, refuting the claim
that both signals follow the wait-then-flush procedure. -/
theorem c6_counterexample :
    stHist.buffer ≠ [] ∧
    (handle_request_final runEnv stHist 100).steps = [FlushStep.finalSynth] ∧
    FlushStep.grace 2 ∉ (handle_request_final runEnv stHist 100).steps ∧
    FlushStep.midStream ∉ (handle_request_final runEnv stHist 100).steps := by
  decide

/-- C6 amended: only the explicit stop signal first waits the fixed 2 s
grace period and then runs one last mid-stream synthesis when the fragment
buffer is non-empty before invoking final synthesis; the explicit
request-final signal invokes final synthesis directly.  On either path,
final synthesis with a non-empty history runs exactly one top-15 retrieval
query over the joined accumulated fragment text and invokes the
final-synthesis collaborator exactly once with the entire structured-notes
history and that retrieval context. -/
theorem c6_flush_procedure :
    (∀ (env : Env) (st : ProcState) (now : Nat),
      (handle_stop_recording env st now).steps =
        FlushStep.grace 2 ::
          ((if 0 < st.buffer.length then [FlushStep.midStream] else []) ++
            [FlushStep.finalSynth]))
    ∧ (∀ (env : Env) (st : ProcState) (now : Nat),
      (handle_request_final env st now).steps = [FlushStep.finalSynth])
    ∧ (∀ (env : Env) (st : ProcState) (now : Nat), st.history ≠ [] →
      (final_synthesis env st now).queries = [(joinTexts st.buffer, 15)] ∧
      (final_synthesis env st now).calls =
        [(st.history, env.queryDocuments (joinTexts st.buffer) 15)]) := by
  refine ⟨fun env st now => rfl, fun env st now => rfl, ?_⟩
  intro env st now hne
  have h0 : st.history.isEmpty = false := isEmpty_false_of_ne_nil hne
  cases hr : env.synthesizeFinalNotes st.history
      (env.queryDocuments (joinTexts st.buffer) 15) <;>
    simp [final_synthesis, h0, hr]

/-- C6 witness: the final-synthesis retrieval and collaborator invocation
at a concrete non-empty-history state. -/
theorem c6_witness :
    (final_synthesis runEnv stHist 100).queries = [(joinTexts stHist.buffer, 15)] ∧
    (final_synthesis runEnv stHist 100).calls =
      [(stHist.history, runEnv.queryDocuments (joinTexts stHist.buffer) 15)] :=
  c6_flush_procedure.2.2 runEnv stHist 100 (by decide)

/-- C5: on a new transport connection for a session id that already has a
registered worker (reconnect), every worker carrying the old task id is
cancelled (no longer alive), the session queue is replaced with a fresh
empty queue so all pending work items are discarded, and a fresh worker is
started and registered, leaving exactly one live worker for that session
id afterwards.  Hypotheses: the registered task id belongs to an existing
worker, and every live worker for the session is the registered one (the
single-worker invariant the endpoint maintains). -/
theorem c5_reconnect (srv : ServerState) (sid : String) (oldW : Nat)
    (hlk : findVal srv.tasksMap sid = some oldW)
    (hex : ∃ w ∈ srv.workers, w.wid = oldW)
    (hreg : ∀ w ∈ srv.workers, w.sid = sid → w.alive = true → w.wid = oldW) :
    findVal (websocket_connect srv sid).queues sid = some [] ∧
    (∀ w ∈ (websocket_connect srv sid).workers, w.wid = oldW → w.alive = false) ∧
    liveWorkers (websocket_connect srv sid) sid =
      [⟨freshId srv.workers, sid, true⟩] ∧
    (liveWorkers (websocket_connect srv sid) sid).length = 1 ∧
    findVal (websocket_connect srv sid).tasksMap sid = some (freshId srv.workers) := by
  have hfresh : oldW < freshId srv.workers := by
    obtain ⟨w, hw, hwid⟩ := hex
    have := freshId_gt srv.workers w hw
    omega
  have hconn : websocket_connect srv sid =
      ⟨cancelWorker srv.workers oldW ++ [⟨freshId srv.workers, sid, true⟩],
       setKey srv.tasksMap sid (freshId srv.workers),
       setKey srv.queues sid []⟩ := by
    unfold websocket_connect
    rw [hlk]
    simp [freshId_cancel]
  have hcancelled : ∀ w ∈ cancelWorker srv.workers oldW, w.wid = oldW → w.alive = false := by
    intro w hw hwid
    rcases List.mem_map.mp hw with ⟨x, hx, hxe⟩
    by_cases hxo : x.wid = oldW
    · rw [← hxe, if_pos hxo]
    · rw [← hxe, if_neg hxo] at hwid ⊢
      exact absurd hwid hxo
  have hlive : liveWorkers (websocket_connect srv sid) sid =
      [⟨freshId srv.workers, sid, true⟩] := by
    rw [hconn]
    unfold liveWorkers
    simp only [List.filter_append]
    have h1 : (cancelWorker srv.workers oldW).filter
        (fun w => decide (w.sid = sid) && w.alive) = [] := by
      rw [List.filter_eq_nil_iff]
      intro w hw
      rcases List.mem_map.mp hw with ⟨x, hx, hxe⟩
      by_cases hxo : x.wid = oldW
      · rw [← hxe, if_pos hxo]
        simp
      · rw [← hxe, if_neg hxo]
        simp only [Bool.and_eq_true, decide_eq_true_eq, not_and]
        intro hsid halive
        exact hxo (hreg x hx hsid halive)
    rw [h1]
    simp
  refine ⟨?_, ?_, hlive, ?_, ?_⟩
  · rw [hconn]
    exact findVal_setKey_self _ _ _
  · rw [hconn]
    intro w hw hwid
    rcases List.mem_append.mp hw with hmem | hmem
    · exact hcancelled w hmem hwid
    · rcases List.mem_singleton.mp hmem with rfl
      have h2 : freshId srv.workers = oldW := hwid
      exact absurd h2 (by omega)
  · simp [hlive]
  · rw [hconn]
    exact findVal_setKey_self _ _ _

/-- C5 witness: a concrete reconnect for session `s` with one running
worker and one pending queue item. -/
theorem c5_witness :
    findVal (websocket_connect srvOne "s").queues "s" = some [] ∧
    (∀ w ∈ (websocket_connect srvOne "s").workers, w.wid = 0 → w.alive = false) ∧
    liveWorkers (websocket_connect srvOne "s") "s" =
      [⟨freshId srvOne.workers, "s", true⟩] ∧
    (liveWorkers (websocket_connect srvOne "s") "s").length = 1 ∧
    findVal (websocket_connect srvOne "s").tasksMap "s" = some (freshId srvOne.workers) :=
  c5_reconnect srvOne "s" 0 (by decide) (by decide) (by decide)

end EduScribe
